import Mathlib

/-!
Verification development for the secure-cloud-syncer task supervisor.

The definitions below are shallow embeddings of the Python sources:
  * `secure_cloud_syncer/sync/monitor.py`   (ChangeHandler, check_rclone_version)
  * `secure_cloud_syncer/sync/bidirectional.py` (check_rclone_version)
  * `secure_cloud_syncer/manager.py`        (SyncTask, SyncManager.reload_config,
                                             _health_check_loop, save_pid,
                                             check_and_cleanup_duplicate_managers, main)
  * `secure_cloud_syncer/cli.py`            (load_config, save_config)

Machine integers are modelled as `Nat` (times are non-negative clock readings,
Python uses unbounded ints for counters), fallible code as `Except`, and the
file system / process table as explicit state records.
-/

/-! ## Paths and the event filter (monitor.py, ChangeHandler.on_any_event lines 145-158)

Absolute POSIX paths are modelled as their list of components.  `watchdog`
delivers absolute `src_path` strings; `os.path.relpath` on POSIX never raises
`ValueError` (that branch is Windows-only), so the `except ValueError` branch
of `on_any_event` is not reachable in this model. -/

/-- Does `pat` occur as a prefix of `l`?  (Kernel-computable helper used for
all string prefix/suffix/containment tests of the model.) -/
def listStartsWith : List Char → List Char → Bool
  | [], _ => true
  | _ :: _, [] => false
  | a :: as, b :: bs => a == b && listStartsWith as bs

/-- Python `s.startswith(pre)`. -/
def strStartsWith (s pre : String) : Bool :=
  listStartsWith pre.data s.data

/-- Python `s.endswith(suffix)`. -/
def strEndsWith (s suffix : String) : Bool :=
  listStartsWith suffix.data.reverse s.data.reverse

/-- Python `s.lower()`. -/
def strToLower (s : String) : String :=
  String.mk (s.data.map Char.toLower)

/-- A file-system event as delivered by watchdog: directory flag plus the
absolute path of the touched file, as components. -/
structure FsEvent where
  isDirectory : Bool
  srcPath : List String
deriving DecidableEq

/-- Render a component list as the absolute path string. -/
def pathStr (p : List String) : String :=
  "/" ++ String.intercalate "/" p

/-- Python `os.path.basename`: the last component (empty for the root). -/
def lastComponent (p : List String) : String :=
  (p.getLast?).getD ""

/-- Strip the longest common prefix of two component lists. -/
def stripCommon : List String → List String → List String × List String
  | a :: as, b :: bs => if a = b then stripCommon as bs else (a :: as, b :: bs)
  | as, bs => (as, bs)

/-- Python `os.path.relpath path start` on normalized absolute POSIX paths:
one `..` per leftover component of `start`, then the leftover of `path`;
`"."` when the two coincide. -/
def relString (path start : List String) : String :=
  let pr := stripCommon path start
  let parts := List.replicate pr.2.length ".." ++ pr.1
  if parts = [] then "." else String.intercalate "/" parts

/-- The event filter of `ChangeHandler.on_any_event` (monitor.py lines 145-158):
directory events, paths ending in `~`, hidden basenames, and paths whose
relative form escapes the watched root are discarded. -/
def relevantEvent (local_dir : List String) (e : FsEvent) : Bool :=
  !e.isDirectory
    && !(strEndsWith (lastComponent e.srcPath) "~")
    && !(strStartsWith (lastComponent e.srcPath) ".")
    && !(strStartsWith (relString e.srcPath local_dir) "..")

/-! ## ChangeHandler configuration and mutable state (monitor.py lines 94-117) -/

/-- The immutable constructor arguments of `ChangeHandler`. -/
structure MCfg where
  local_dir : List String
  remote_dir : String
  exclude_resource_forks : Bool
  debounce_time : Nat
  log_file : String
  direction : String
deriving DecidableEq

/-- The mutable fields of `ChangeHandler` touched by `on_any_event` /
`sync_directory`: `last_sync`, `sync_pending`, `sync_in_progress`
(monitor.py lines 112-114). -/
structure MState where
  last_sync : Nat
  sync_pending : Bool
  sync_in_progress : Bool
deriving DecidableEq

/-- Handler state right after `ChangeHandler.__init__` returned: `last_sync = 0`
(the constructor's initial sync never updates `last_sync`), both flags false. -/
def mInit : MState := ⟨0, false, false⟩

/-- Embeds `build_exclude_patterns` (monitor.py lines 44-88). -/
def build_exclude_patterns (exclude_resource_forks : Bool) : List String :=
  let patterns := [
    "--exclude", ".DS_Store",
    "--exclude", ".DS_Store/**",
    "--exclude", "**/.DS_Store",
    "--exclude", ".Trash/**",
    "--exclude", "**/.Trash/**",
    "--exclude", ".localized",
    "--exclude", "**/.localized",
    "--exclude", ".Spotlight-V100",
    "--exclude", "**/.Spotlight-V100/**",
    "--exclude", ".fseventsd",
    "--exclude", "**/.fseventsd/**",
    "--exclude", ".TemporaryItems",
    "--exclude", "**/.TemporaryItems/**",
    "--exclude", ".VolumeIcon.icns",
    "--exclude", "**/.VolumeIcon.icns",
    "--exclude", ".DocumentRevisions-V100",
    "--exclude", "**/.DocumentRevisions-V100/**",
    "--exclude", ".com.apple.timemachine.donotpresent",
    "--exclude", "**/.com.apple.timemachine.donotpresent",
    "--exclude", ".AppleDouble",
    "--exclude", "**/.AppleDouble/**",
    "--exclude", ".LSOverride",
    "--exclude", "**/.LSOverride/**",
    "--exclude", "Icon?",
    "--exclude", "**/Icon?"]
  if exclude_resource_forks then
    patterns ++ ["--exclude", "._*", "--exclude", "**/._*"]
  else patterns

/-- The rclone command built by `ChangeHandler.sync_directory`
(monitor.py lines 189-237): `bisync` for direction `"bidirectional"` with
`--resync` inserted at index 4 on the initial sync, `sync` otherwise,
then the exclude patterns. -/
def monitorCmd (cfg : MCfg) (initial_sync : Bool) : List String :=
  let base :=
    if cfg.direction = "bidirectional" then
      let cmd := ["rclone", "bisync", pathStr cfg.local_dir, cfg.remote_dir,
        "--verbose", "--log-file", cfg.log_file, "--transfers", "4",
        "--checkers", "8", "--contimeout", "60s", "--timeout", "300s",
        "--retries", "3", "--low-level-retries", "10", "--progress",
        "--stats-one-line", "--stats", "5s"]
      if initial_sync then cmd.take 4 ++ ["--resync"] ++ cmd.drop 4 else cmd
    else
      ["rclone", "sync", pathStr cfg.local_dir, cfg.remote_dir,
        "--verbose", "--log-file", cfg.log_file, "--transfers", "4",
        "--checkers", "8", "--contimeout", "60s", "--timeout", "300s",
        "--retries", "3", "--low-level-retries", "10", "--progress",
        "--stats-one-line", "--stats", "5s"]
  base ++ build_exclude_patterns cfg.exclude_resource_forks

/-- One Sync Executor invocation: the clock reading at which `subprocess.run`
was issued and the full command line. -/
structure Invocation where
  time : Nat
  cmd : List String
deriving DecidableEq

/-- Embeds `ChangeHandler.sync_directory` (monitor.py lines 176-257), sequential view:
the dispatch thread blocks for the whole `subprocess.run` call, so the method
runs to completion atomically between events.  `t` is the clock reading,
`res` the queue of executor outcomes (`true` = exit 0); a failing run raises
`CalledProcessError`, which lines 244-247 catch, so the outcome never changes
the control flow.  The recursive resync of lines 250-254 fires when
`sync_pending` holds after the run and re-enters with the flag cleared; the
`finally` of line 256 clears `sync_in_progress` on every frame. -/
def sync_directory (cfg : MCfg) (t : Nat) (initial_sync : Bool) (s : MState)
    (res : List Bool) : MState × List Invocation :=
  if s.sync_in_progress then (s, [])
  else
    let inv : Invocation := ⟨t, monitorCmd cfg initial_sync⟩
    if h : s.sync_pending then
      let pr := sync_directory cfg t false
        ⟨s.last_sync, false, false⟩ res.tail
      (⟨pr.1.last_sync, pr.1.sync_pending, false⟩, inv :: pr.2)
    else
      (⟨s.last_sync, s.sync_pending, false⟩, [inv])
termination_by (if s.sync_pending then 1 else 0)
decreasing_by simp [h]

/-- Embeds `ChangeHandler.on_any_event` (monitor.py lines 138-174), sequential view.
Filter, then the throttle test `current_time - self.last_sync <
self.debounce_time` (over the reals this is `t < last_sync + debounce_time`),
then the in-progress check, then an inline `sync_directory` call. -/
def on_any_event (cfg : MCfg) (s : MState) (e : FsEvent) (t : Nat)
    (res : List Bool) : MState × List Invocation :=
  if e.isDirectory then (s, [])
  else if strEndsWith (lastComponent e.srcPath) "~"
      || strStartsWith (lastComponent e.srcPath) "." then (s, [])
  else if strStartsWith (relString e.srcPath cfg.local_dir) ".." then (s, [])
  else if t < s.last_sync + cfg.debounce_time then
    ({ s with sync_pending := true }, [])
  else
    let s1 : MState := ⟨t, false, s.sync_in_progress⟩
    if s1.sync_in_progress then ({ s1 with sync_pending := true }, [])
    else sync_directory cfg t false s1 res

/-- Dispatch a sequence of events through the handler, each tagged with the
clock reading at which the watchdog dispatch thread runs `on_any_event` and
with the executor outcomes available to it. -/
def processEvents (cfg : MCfg) : MState → List (FsEvent × Nat × List Bool) →
    MState × List Invocation
  | s, [] => (s, [])
  | s, (e, t, res) :: rest =>
    let pr := on_any_event cfg s e t res
    let pr' := processEvents cfg pr.1 rest
    (pr'.1, pr.2 ++ pr'.2)

/-! ## Interleaved transition system for one task's handler

`ChangeHandler` is also exercised while an executor invocation is in flight
(the `sync_in_progress` checks at monitor.py lines 169-172 and 183-185 and the
chained resync at lines 249-254 exist for exactly that).  The labelled
transition system below makes the executor run a separate begin/end pair so
that events may arrive in between; each transition is one atomic block of
statements of `on_any_event` (lines 145-174) or of the post-run code of
`sync_directory` (lines 249-257). -/

/-- Handler state plus executor bookkeeping: `inFlight` counts executor
invocations currently running, `startedCount` all invocations begun so far. -/
structure LState where
  last_sync : Nat
  sync_pending : Bool
  sync_in_progress : Bool
  inFlight : Nat
  startedCount : Nat
deriving DecidableEq

/-- State right after `ChangeHandler.__init__` (its synchronous initial sync
already completed, which counts separately and leaves the fields untouched). -/
def lInit : LState := ⟨0, false, false, 0, 0⟩

/-- Transition labels: an `on_any_event` dispatch at clock reading `t`, or the
termination of the running executor with exit status `ok`. -/
inductive LLabel where
  | event (e : FsEvent) (t : Nat)
  | execDone (ok : Bool)

/-- One atomic step of the handler (monitor.py).  Event steps follow
`on_any_event` lines 145-174; `execDone` steps follow `sync_directory`
lines 239-257, where a failing run is caught (lines 244-247) so the exit
status never changes the state, and a set `sync_pending` chains exactly one
further invocation with the flag cleared first (lines 250-254). -/
inductive LStep (cfg : MCfg) : LState → LLabel → LState → Prop
  | eventSkip (s : LState) (e : FsEvent) (t : Nat)
      (hrel : relevantEvent cfg.local_dir e = false) :
      LStep cfg s (.event e t) s
  | eventThrottle (s : LState) (e : FsEvent) (t : Nat)
      (hrel : relevantEvent cfg.local_dir e = true)
      (hwin : t < s.last_sync + cfg.debounce_time) :
      LStep cfg s (.event e t)
        ⟨s.last_sync, true, s.sync_in_progress, s.inFlight, s.startedCount⟩
  | eventBusy (s : LState) (e : FsEvent) (t : Nat)
      (hrel : relevantEvent cfg.local_dir e = true)
      (hwin : ¬ t < s.last_sync + cfg.debounce_time)
      (hip : s.sync_in_progress = true) :
      LStep cfg s (.event e t)
        ⟨t, true, true, s.inFlight, s.startedCount⟩
  | eventStart (s : LState) (e : FsEvent) (t : Nat)
      (hrel : relevantEvent cfg.local_dir e = true)
      (hwin : ¬ t < s.last_sync + cfg.debounce_time)
      (hip : s.sync_in_progress = false) :
      LStep cfg s (.event e t)
        ⟨t, false, true, s.inFlight + 1, s.startedCount + 1⟩
  | execDoneChain (s : LState) (ok : Bool)
      (hrun : 0 < s.inFlight)
      (hp : s.sync_pending = true) :
      LStep cfg s (.execDone ok)
        ⟨s.last_sync, false, true, s.inFlight, s.startedCount + 1⟩
  | execDoneFinal (s : LState) (ok : Bool)
      (hrun : 0 < s.inFlight)
      (hp : s.sync_pending = false) :
      LStep cfg s (.execDone ok)
        ⟨s.last_sync, false, false, s.inFlight - 1, s.startedCount⟩

/-- Some step with some label. -/
def LStepAny (cfg : MCfg) (a b : LState) : Prop :=
  ∃ l, LStep cfg a l b

/-- States the handler can reach from its post-construction state. -/
def LReachable (cfg : MCfg) : LState → Prop :=
  Relation.ReflTransGen (LStepAny cfg) lInit

/-! ## manager.py: SyncTask, the health pass, reconciliation -/

/-- One task's configuration entry as written by the CLI (`cli.py add_sync`):
`{name, local_dir, remote_dir, mode, exclude_resource_forks, debounce_time,
status}`. -/
structure TaskCfg where
  name : String
  local_dir : String
  remote_dir : String
  mode : String
  exclude_resource_forks : Bool
  debounce_time : Nat
  status : String
deriving DecidableEq

/-- The runtime fields of `SyncTask` (manager.py lines 102-115); `running`
abstracts `observer is not None and observer.is_alive()`. -/
structure MgrTask where
  config : TaskCfg
  running : Bool
  start_time : Option Nat
  last_error : Option String
  error_count : Nat
  restart_count : Nat
deriving DecidableEq

/-- Embeds `SyncTask.__init__` (manager.py lines 102-115). -/
def SyncTask.new (cfg : TaskCfg) : MgrTask :=
  ⟨cfg, false, none, none, 0, 0⟩

/-- Embeds `SyncTask.start` (manager.py lines 117-166).  `ok` is the outcome of the
`monitor.start_monitoring` call (the typed config always carries the required
fields): on success the observer is live and the error/restart counters reset
(lines 154-157); on an exception `last_error` is recorded and `error_count`
incremented (lines 162-166). -/
def MgrTask.start (tk : MgrTask) (ok : Bool) (now : Nat) : MgrTask :=
  if ok then
    { tk with running := true, start_time := some now, last_error := none,
              error_count := 0, restart_count := 0 }
  else
    { tk with running := false, last_error := some "Error starting task",
              error_count := tk.error_count + 1 }

/-- Embeds `SyncTask.stop` (manager.py lines 168-186): stop and join the observer. -/
def MgrTask.stop (tk : MgrTask) : MgrTask :=
  { tk with running := false }

/-- The names of the methods the class `SyncTask` defines
(manager.py lines 98-211) — Python attribute lookup on a task resolves
exactly these. -/
def syncTaskMethods : List String :=
  ["__init__", "start", "stop", "is_running", "get_status"]

/-- A Python exception, as far as this model needs one. -/
inductive PyErr where
  | attributeError (attr : String)
deriving DecidableEq

/-- Python attribute lookup for a method call on a `SyncTask`. -/
def pyGetMethod (methods : List String) (attr : String) : Except PyErr Unit :=
  if methods.contains attr then .ok () else .error (.attributeError attr)

/-- One pass of `SyncManager._health_check_loop` (manager.py lines 368-374):
`for task in self.tasks.values(): task.check_health()`, with no exception
handler around the loop body. -/
def health_check_pass (tasks : List (String × MgrTask)) : Except PyErr Unit :=
  tasks.foldlM (fun _ _ => pyGetMethod syncTaskMethods "check_health") ()

/-- The task registry `SyncManager.tasks`, as an insertion-ordered mapping. -/
abbrev Registry := List (String × MgrTask)

/-- Replace the entry for `n` (models `self.tasks[name] = task` for an
existing key). -/
def updateTask (reg : Registry) (n : String) (tk : MgrTask) : Registry :=
  reg.map (fun p => if p.1 = n then (n, tk) else p)

/-- The reconcile pass of `SyncManager.reload_config` (manager.py
lines 392-419), run under the registry lock on the freshly loaded
`syncs` mapping.  `ok n` is the outcome `SyncTask.start` would have for
task `n`, `now` the clock reading.
Lines 394-398: names absent from the new config are stopped and deleted.
Lines 401-411: an existing name with a structurally different config is
stopped, then replaced-and-started unless the new status is `"paused"`, in
which case the old (now stopped) object stays registered.
Lines 413-419: a new name is constructed and started only when its status is
not `"paused"`; a new paused name is only logged. -/
def reload_reconcile (reg : Registry) (syncs : List (String × TaskCfg))
    (ok : String → Bool) (now : Nat) : Registry :=
  let reg1 : Registry :=
    reg.filter (fun p => ((syncs.lookup p.1).isSome : Bool))
  syncs.foldl (fun (acc : Registry) nc =>
    match acc.lookup nc.1 with
    | some oldTask =>
      if oldTask.config ≠ nc.2 then
        if nc.2.status ≠ "paused" then
          updateTask acc nc.1 ((SyncTask.new nc.2).start (ok nc.1) now)
        else
          updateTask acc nc.1 oldTask.stop
      else acc
    | none =>
      if nc.2.status ≠ "paused" then
        acc ++ [(nc.1, (SyncTask.new nc.2).start (ok nc.1) now)]
      else acc) reg1

/-- What reading the config file can yield to the daemon: no file, a file
`json.load` rejects, or a parsed document with its `syncs` mapping. -/
inductive ConfigRead where
  | missing
  | malformed
  | parsed (syncs : List (String × TaskCfg))

/-- Embeds `SyncManager.reload_config` (manager.py lines 376-423), daemon running.
A missing file becomes the empty document `{"syncs": {}}` (lines 384-386); a
file `json.load` raises on is caught by the outer handler at lines 422-423
*before* any registry mutation, so the registry is left as it was; a parsed
document is reconciled. -/
def reload_config (reg : Registry) (file : ConfigRead) (ok : String → Bool)
    (now : Nat) : Registry :=
  match file with
  | .missing => reload_reconcile reg [] ok now
  | .malformed => reg
  | .parsed syncs => reload_reconcile reg syncs ok now

/-! ## cli.py: load_config / save_config -/

/-- Embeds `cli.py load_config` (lines 57-67): a missing file and any load error
both yield the empty task set `{"syncs": {}}`. -/
def load_config : ConfigRead → List (String × TaskCfg)
  | .missing => []
  | .malformed => []
  | .parsed syncs => syncs

/-- A file-system operation, for stating atomicity of the save paths. -/
inductive FsOp where
  | makedirs (dir : String)
  | write (path : String) (data : String)
  | rename (src : String) (dst : String)
  | chmod (path : String) (mode : Nat)
deriving DecidableEq

/-- Path `~/.rclone/scs_config.json` (cli.py line 54 / manager.py line 78). -/
def CONFIG_FILE : String := "~/.rclone/scs_config.json"

/-- Path `~/.rclone/scs_manager.pid` (manager.py line 80). -/
def PID_FILE : String := "~/.rclone/scs_manager.pid"

/-- The file operations `cli.py save_config` performs on its success path
(lines 69-77): `os.makedirs` on the parent, then `json.dump` straight into
the config file opened with `open(CONFIG_FILE, 'w')`. -/
def save_config_ops (doc : String) : List FsOp :=
  [.makedirs "~/.rclone", .write CONFIG_FILE doc]

/-- The file operations `manager.py save_pid` performs on its success path
(lines 433-451): write the pid to `PID_FILE + ".tmp"`, `os.rename` it over
`PID_FILE`, then `chmod 0o644`. -/
def save_pid_ops (pid : String) : List FsOp :=
  [.makedirs "~/.rclone", .write (PID_FILE ++ ".tmp") pid,
   .rename (PID_FILE ++ ".tmp") PID_FILE, .chmod PID_FILE 0o644]

/-- A sequence of file operations replaces `target` atomically: it never
writes `target` in place, and it writes some other temporary path and then
renames that path over `target`. -/
def atomicReplaceVia (ops : List FsOp) (target : String) : Prop :=
  (∀ d, FsOp.write target d ∉ ops) ∧
  ∃ tmp, tmp ≠ target ∧ (∃ d, FsOp.write tmp d ∈ ops) ∧
    FsOp.rename tmp target ∈ ops

/-! ## Process world: duplicate-instance cleanup and daemon startup
(manager.py lines 490-521 and 523-571) -/

/-- Does `pat` occur as a contiguous subsequence of `hay`? -/
def listContainsSeq (hay pat : List Char) : Bool :=
  if listStartsWith pat hay then true
  else
    match hay with
    | [] => false
    | _ :: t => listContainsSeq t pat

/-- Python `needle in hay` on strings. -/
def strContains (hay needle : String) : Bool :=
  listContainsSeq hay.data needle.data

/-- A process-table entry as `psutil.process_iter(['pid','name','cmdline'])`
reports it. -/
structure SProc where
  pid : Nat
  name : String
  cmdline : List String
deriving DecidableEq

/-- The duplicate test of `check_and_cleanup_duplicate_managers`
(manager.py lines 497-499): a python/pythonw process whose joined command
line mentions `secure_cloud_syncer.manager`.  (`'pythonw'` is itself prefixed
by `'python'`, so one prefix test covers the tuple.) -/
def isManagerProc (p : SProc) : Bool :=
  strStartsWith (strToLower p.name) "python"
    && strContains (String.intercalate " " p.cmdline) "secure_cloud_syncer.manager"

/-- The host state the startup path touches: the process table, the PID-lock
file and the intentional-stop marker. -/
structure PWorld where
  procs : List SProc
  pid_file : Option String
  stop_flag : Bool
deriving DecidableEq

/-- The loop body of `check_and_cleanup_duplicate_managers` (manager.py
lines 494-517) for one candidate process: a duplicate manager (not self) is
terminated (killed after a timeout if need be) and the stale `PID_FILE` and
`STOP_FLAG_FILE` are removed. -/
def cleanupStep (selfPid : Nat) (w : PWorld) (p : SProc) : PWorld :=
  if isManagerProc p && p.pid != selfPid then
    ⟨w.procs.filter (fun q => q.pid ≠ p.pid), none, false⟩
  else w

/-- Embeds `check_and_cleanup_duplicate_managers` (manager.py lines 490-521):
iterate over the process listing, cleaning up every duplicate. -/
def check_and_cleanup_duplicate_managers (w : PWorld) (selfPid : Nat) : PWorld :=
  w.procs.foldl (cleanupStep selfPid) w

/-- What the daemon's `main` does after its startup sequence. -/
inductive DaemonStart where
  | runs (w : PWorld)
  | exits (code : Nat)
deriving DecidableEq

/-- The startup sequence of `manager.py main` (lines 523-571), success path
of `save_pid`: clean up duplicates, write the own PID file, then initialize
and run the manager — there is no branch that exits because another instance
was found. -/
def daemon_main_startup (w : PWorld) (selfPid : Nat) : DaemonStart :=
  let w1 := check_and_cleanup_duplicate_managers w selfPid
  .runs { w1 with pid_file := some (toString selfPid) }

/-! ## The two rclone version checks
(monitor.py lines 17-42, bidirectional.py lines 25-49) -/

/-- Digits of a decimal numeral, most significant first, as a number. -/
def natOfDigits (ds : List Char) : Nat :=
  ds.foldl (fun n c => 10 * n + (c.toNat - '0'.toNat)) 0

/-- Match the regex `rclone v(\d+\.\d+\.\d+)` at the head of `l` and return
the three numeric components of the capture.  For this pattern maximal-munch
digit runs are exact: a `\d+` that must be followed by `.` gains nothing from
backtracking (a digit is never `.`), and the final `\d+` is greedy. -/
def matchVersionAt (l : List Char) : Option (Nat × Nat × Nat) :=
  if listStartsWith "rclone v".data l then
    let rest := l.drop "rclone v".data.length
    let d1 := rest.takeWhile Char.isDigit
    let r1 := rest.dropWhile Char.isDigit
    if d1 = [] then none
    else
      match r1 with
      | '.' :: r2 =>
        let d2 := r2.takeWhile Char.isDigit
        let r3 := r2.dropWhile Char.isDigit
        if d2 = [] then none
        else
          match r3 with
          | '.' :: r4 =>
            let d3 := r4.takeWhile Char.isDigit
            if d3 = [] then none
            else some (natOfDigits d1, natOfDigits d2, natOfDigits d3)
          | _ => none
      | _ => none
  else none

/-- Python `re.search(r"rclone v(\d+\.\d+\.\d+)", out)`: the leftmost position at
which the pattern matches, if any. -/
def searchVersion (l : List Char) : Option (Nat × Nat × Nat) :=
  match matchVersionAt l with
  | some v => some v
  | none =>
    match l with
    | [] => none
    | _ :: t => searchVersion t

/-- The outcome of `subprocess.run(["rclone", "version"], ...)`: captured
stdout, or any raised exception. -/
abbrev RunResult := Except Unit String

/-- Embeds `monitor.py check_rclone_version` (lines 17-42) as a function of the
version-command outcome: parse the first `rclone vX.Y.Z` of stdout and
require `major > 1 or (major == 1 and minor >= 58)`; every failure path
returns `False`. -/
def monitor_check_rclone_version (r : RunResult) : Bool :=
  match r with
  | .error _ => false
  | .ok out =>
    match searchVersion out.data with
    | some (major, minor, _) =>
      if 1 < major ∨ (major = 1 ∧ 58 ≤ minor) then true else false
    | none => false

/-- Embeds `bidirectional.py check_rclone_version` (lines 25-49): same parse, with
the comparison written `major > 1 or (major == 1 and minor > 57)`. -/
def bidirectional_check_rclone_version (r : RunResult) : Bool :=
  match r with
  | .error _ => false
  | .ok out =>
    match searchVersion out.data with
    | some (major, minor, _) =>
      if 1 < major ∨ (major = 1 ∧ 57 < minor) then true else false
    | none => false

/-- Modelled from the claim's words (not from the source): the output
*contains*, at any position, a version `rclone vX.Y.Z` with `X > 1` or
`X = 1 ∧ Y ≥ 58`. -/
def containsGoodVersion (out : String) : Bool :=
  (List.range (out.data.length + 1)).any (fun i =>
    match matchVersionAt (out.data.drop i) with
    | some (major, minor, _) => decide (1 < major ∨ (major = 1 ∧ 58 ≤ minor))
    | none => false)

/-! ## Concrete sample data used by counterexamples and witnesses -/

/-- A `vault` handler configuration: upload mode, 5 s debounce. -/
def mcfg0 : MCfg :=
  ⟨["home", "u", "vault"], "gdrive-crypt:vault", false, 5,
   "/home/u/.rclone/scs_monitor_rsync.log", "upload"⟩

/-- A relevant change event inside the watched directory. -/
def ev0 : FsEvent := ⟨false, ["home", "u", "vault", "file.txt"]⟩

/-- The `vault` task configuration, active. -/
def cfgActive : TaskCfg :=
  ⟨"vault", "/home/u/vault", "gdrive-crypt:vault", "upload", false, 5, "active"⟩

/-- The `vault` task configuration, paused. -/
def cfgPaused : TaskCfg :=
  { cfgActive with status := "paused" }

/-- A freshly started `vault` task (watch alive, no errors). -/
def task0 : MgrTask := (SyncTask.new cfgActive).start true 0

/-- A process table with a running first daemon (pid 1) and the starting
second daemon (pid 2), the first holding the PID-lock file. -/
def pworld0 : PWorld :=
  ⟨[⟨1, "python", ["python", "-m", "secure_cloud_syncer.manager"]⟩,
    ⟨2, "python", ["python", "-m", "secure_cloud_syncer.manager"]⟩],
   some "1", false⟩

/-- Dispatching one event through a task's `ChangeHandler` together with the
managing `SyncTask` record: the handler (monitor.py) holds no reference to
the `SyncTask`, and its executor-failure paths (lines 244-247) only log, so
event handling leaves the task record untouched — in particular
`error_count` is modified nowhere but in `SyncTask.start`. -/
def taskAfterHandlerEvent (tk : MgrTask) (cfg : MCfg) (s : MState)
    (e : FsEvent) (t : Nat) (res : List Bool) :
    MgrTask × MState × List Invocation :=
  let pr := on_any_event cfg s e t res
  (tk, pr.1, pr.2)

/-- The version both checks act on: the leftmost regex match in the captured
stdout, none when the command raised. -/
def versionOfRunResult (r : RunResult) : Option (Nat × Nat × Nat) :=
  match r with
  | .ok out => searchVersion out.data
  | .error _ => none

/-- LTS state after one `eventStart` at clock 100 from `lInit`: an executor
invocation is in flight. -/
def lBusy : LState := ⟨100, false, true, 1, 1⟩

/-- LTS state after a further relevant event at clock 101 while the executor
runs: the pending flag is latched. -/
def lBusyP : LState := ⟨100, true, true, 1, 1⟩

/-- LTS state after the running executor finishes with the pending flag set:
the chained resync is in flight, the flag cleared. -/
def lChain : LState := ⟨100, false, true, 1, 2⟩

/-! # Theorems -/

/-- Unfold `sync_directory` when the handler is idle and no pending flag is
set (the only way `on_any_event` ever calls it): exactly one invocation is
issued immediately, at clock reading `t`. -/
theorem sync_directory_idle (cfg : MCfg) (t : Nat) (initial_sync : Bool)
    (s : MState) (res : List Bool)
    (hip : s.sync_in_progress = false) (hp : s.sync_pending = false) :
    sync_directory cfg t initial_sync s res
      = (⟨s.last_sync, false, false⟩, [⟨t, monitorCmd cfg initial_sync⟩]) := by
  rw [sync_directory]
  simp [hip, hp]

/-- Unfolds `on_any_event` on an event that passes the filter: throttle, busy flag,
or an immediate inline sync. -/
theorem on_any_event_relevant (cfg : MCfg) (s : MState) (e : FsEvent)
    (t : Nat) (res : List Bool)
    (hrel : relevantEvent cfg.local_dir e = true) :
    on_any_event cfg s e t res =
      if t < s.last_sync + cfg.debounce_time then
        ({ s with sync_pending := true }, [])
      else if s.sync_in_progress then ((⟨t, true, true⟩ : MState), [])
      else sync_directory cfg t false ⟨t, false, false⟩ res := by
  simp only [relevantEvent, Bool.and_eq_true, Bool.not_eq_true'] at hrel
  obtain ⟨⟨⟨hd, he⟩, hs⟩, hr⟩ := hrel
  cases hip : s.sync_in_progress with
  | false => simp [on_any_event, hd, he, hs, hr, hip]
  | true => simp [on_any_event, hd, he, hs, hr, hip]


/-- One relevant event, handler idle, at least a window after the previous
trigger: a single invocation is issued immediately, at clock `t`. -/
theorem single_trigger (cfg : MCfg) (s : MState) (e : FsEvent) (t : Nat)
    (res : List Bool)
    (hrel : relevantEvent cfg.local_dir e = true)
    (hidle : s.sync_in_progress = false)
    (hwin : s.last_sync + cfg.debounce_time ≤ t) :
    on_any_event cfg s e t res
      = (⟨t, false, false⟩, [⟨t, monitorCmd cfg false⟩]) := by
  rw [on_any_event_relevant cfg s e t res hrel, if_neg (by omega),
      if_neg (by simp [hidle]),
      sync_directory_idle cfg t false ⟨t, false, false⟩ res rfl rfl]

/-- One relevant event inside the throttle window: only `sync_pending` is
set, no invocation is issued and no timer is armed. -/
theorem single_throttle (cfg : MCfg) (s : MState) (e : FsEvent) (t : Nat)
    (res : List Bool)
    (hrel : relevantEvent cfg.local_dir e = true)
    (hwin : t < s.last_sync + cfg.debounce_time) :
    on_any_event cfg s e t res = ({ s with sync_pending := true }, []) := by
  rw [on_any_event_relevant cfg s e t res hrel, if_pos hwin]

/-- Closed form for a burst of three relevant events in one window while
idle: one invocation at the first event's clock, pending flag latched. -/
theorem burst_three (cfg : MCfg) (s0 : MState) (e : FsEvent) (t1 t2 t3 : Nat)
    (r1 r2 r3 : List Bool)
    (hrel : relevantEvent cfg.local_dir e = true)
    (hidle : s0.sync_in_progress = false)
    (h1 : s0.last_sync + cfg.debounce_time ≤ t1)
    (h2 : t2 < t1 + cfg.debounce_time)
    (h3 : t3 < t1 + cfg.debounce_time) :
    processEvents cfg s0 [(e, t1, r1), (e, t2, r2), (e, t3, r3)]
      = (⟨t1, true, false⟩, [⟨t1, monitorCmd cfg false⟩]) := by
  have e1 := single_trigger cfg s0 e t1 r1 hrel hidle h1
  have e2 := single_throttle cfg ⟨t1, false, false⟩ e t2 r2 hrel
    (by simpa using h2)
  have e3 := single_throttle cfg ⟨t1, true, false⟩ e t3 r3 hrel
    (by simpa using h3)
  simp [processEvents, e1, e2, e3]

/-- Claim C1, counterexample: with `debounce_time = 5`, three touches of a
watched file dispatched at clock readings 100, 101, 102 produce exactly one
executor invocation, but it is issued at clock 100 — at the *first* touch,
not at least 5 s after the last touch (which would require clock ≥ 107).
The handler is a leading-edge throttle with no timer, not a trailing-edge
debounce. -/
theorem c1_counterexample :
    (processEvents mcfg0 mInit
        [(ev0, 100, [true]), (ev0, 101, [true]), (ev0, 102, [true])]).2.map
        Invocation.time = [100] ∧
    ¬ 102 + 5 ≤ 100 := by
  have h := burst_three mcfg0 mInit ev0 100 101 102 [true] [true] [true]
    (by decide) rfl (by decide) (by decide) (by decide)
  rw [h]
  exact ⟨rfl, by omega⟩

/-- Any tail of relevant events dispatched inside the window `[t1, t1 +
debounce_time)` after a trigger at `t1` (any number of events, any files, in
any order) produces no invocation at all: each one only runs the throttle
branch, so only `sync_pending` can change. -/
theorem throttled_tail (cfg : MCfg) (t1 : Nat) :
    ∀ (rest : List (FsEvent × Nat × List Bool)) (p : Bool),
      (∀ x ∈ rest, relevantEvent cfg.local_dir x.1 = true ∧
        x.2.1 < t1 + cfg.debounce_time) →
      processEvents cfg ⟨t1, p, false⟩ rest
        = (⟨t1, p || !rest.isEmpty, false⟩, []) := by
  intro rest
  induction rest with
  | nil =>
    intro p _
    simp [processEvents]
  | cons x rest ih =>
    intro p hx
    obtain ⟨e, t, r⟩ := x
    obtain ⟨hrel, hwin⟩ := hx (e, t, r) (List.mem_cons_self _ _)
    have hthr := single_throttle cfg ⟨t1, p, false⟩ e t r hrel
      (by simpa using hwin)
    have htail := ih true (fun y hy => hx y (List.mem_cons_of_mem _ hy))
    simp [processEvents, hthr, htail]

/-- Claim C1, amended: for *every* burst of relevant file-change events in
one debounce window — the first dispatched at least `debounce_time` after
the previous trigger with the handler idle, and the remaining events (any
number, any files) dispatched within `debounce_time` of the first — exactly
one executor invocation results, and it is issued immediately at the first
event's clock reading (leading-edge throttle), not after the last; the later
events merely set `sync_pending`. -/
theorem c1_amended (cfg : MCfg) (s0 : MState) (e1 : FsEvent) (t1 : Nat)
    (r1 : List Bool) (rest : List (FsEvent × Nat × List Bool))
    (hrel : relevantEvent cfg.local_dir e1 = true)
    (hidle : s0.sync_in_progress = false)
    (h1 : s0.last_sync + cfg.debounce_time ≤ t1)
    (hrest : ∀ x ∈ rest, relevantEvent cfg.local_dir x.1 = true ∧
      x.2.1 < t1 + cfg.debounce_time) :
    (processEvents cfg s0 ((e1, t1, r1) :: rest)).2.map Invocation.time
        = [t1] ∧
    (processEvents cfg s0 ((e1, t1, r1) :: rest)).1.sync_pending
        = !rest.isEmpty ∧
    (processEvents cfg s0 ((e1, t1, r1) :: rest)).1.sync_in_progress
        = false ∧
    (processEvents cfg s0 ((e1, t1, r1) :: rest)).1.last_sync = t1 := by
  have e1eq := single_trigger cfg s0 e1 t1 r1 hrel hidle h1
  have tail := throttled_tail cfg t1 rest false hrest
  simp [processEvents, e1eq, tail]

/-- Witness for `c1_amended` at the concrete scenario of the claim:
`debounce_time = 5`, touches at clocks 100, 101, 102 (a burst of length 3). -/
theorem c1_amended_witness :
    relevantEvent mcfg0.local_dir ev0 = true ∧
    mInit.sync_in_progress = false ∧
    mInit.last_sync + mcfg0.debounce_time ≤ 100 ∧
    (∀ x ∈ ([(ev0, 101, [true]), (ev0, 102, [true])] :
        List (FsEvent × Nat × List Bool)),
      relevantEvent mcfg0.local_dir x.1 = true ∧
        x.2.1 < 100 + mcfg0.debounce_time) ∧
    ((processEvents mcfg0 mInit
        [(ev0, 100, [true]), (ev0, 101, [true]), (ev0, 102, [true])]).2.map
        Invocation.time = [100] ∧
      (processEvents mcfg0 mInit
        [(ev0, 100, [true]), (ev0, 101, [true]), (ev0, 102, [true])]).1.sync_pending
        = true ∧
      (processEvents mcfg0 mInit
        [(ev0, 100, [true]), (ev0, 101, [true]), (ev0, 102, [true])]).1.sync_in_progress
        = false ∧
      (processEvents mcfg0 mInit
        [(ev0, 100, [true]), (ev0, 101, [true]), (ev0, 102, [true])]).1.last_sync
        = 100) :=
  ⟨by decide, rfl, by decide, by decide,
    c1_amended mcfg0 mInit ev0 100 [true]
      [(ev0, 101, [true]), (ev0, 102, [true])]
      (by decide) rfl (by decide) (by decide)⟩

/-- Every step of the handler transition system preserves the executor
accounting invariant: exactly one invocation is in flight while
`sync_in_progress` is set, none otherwise. -/
theorem lstep_preserves_inv (cfg : MCfg) {s s' : LState}
    (h : LStepAny cfg s s')
    (hs : s.inFlight = if s.sync_in_progress then 1 else 0) :
    s'.inFlight = if s'.sync_in_progress then 1 else 0 := by
  obtain ⟨l, h⟩ := h
  cases h <;> split at hs <;> simp_all

/-- The executor accounting invariant holds in every reachable state. -/
theorem lreach_inv (cfg : MCfg) {s : LState} (h : LReachable cfg s) :
    s.inFlight = if s.sync_in_progress then 1 else 0 := by
  induction h with
  | refl => rfl
  | tail _ hstep ih => exact lstep_preserves_inv cfg hstep ih

/-- Claim C2: in every reachable handler state at most one Sync Executor
invocation is in flight, and whenever `sync_in_progress` is set, a relevant
event only latches `sync_pending` and starts no new invocation
(monitor.py lines 160-174). -/
theorem c2_mutual_exclusion (cfg : MCfg) (s : LState)
    (h : LReachable cfg s) :
    s.inFlight ≤ 1 ∧
    ∀ (e : FsEvent) (t : Nat) (s' : LState),
      relevantEvent cfg.local_dir e = true →
      s.sync_in_progress = true →
      LStep cfg s (.event e t) s' →
      s'.startedCount = s.startedCount ∧ s'.sync_pending = true := by
  constructor
  · have hinv := lreach_inv cfg h
    split at hinv <;> omega
  · intro e t s' hrel hip hstep
    cases hstep <;> simp_all

/-- Witness for `c2_mutual_exclusion` at the reachable state `lBusy`
(one invocation in flight) and a relevant event at clock 101. -/
theorem c2_mutual_exclusion_witness :
    lBusy.inFlight ≤ 1 ∧
    (lBusyP.startedCount = lBusy.startedCount ∧ lBusyP.sync_pending = true) :=
  have hreach : LReachable mcfg0 lBusy :=
    Relation.ReflTransGen.tail Relation.ReflTransGen.refl
      ⟨.event ev0 100, LStep.eventStart lInit ev0 100 (by decide) (by decide) rfl⟩
  ⟨(c2_mutual_exclusion mcfg0 lBusy hreach).1,
   (c2_mutual_exclusion mcfg0 lBusy hreach).2 ev0 101 lBusyP (by decide) rfl
     (LStep.eventThrottle lBusy ev0 101 (by decide) (by decide))⟩

/-- Claim C3: a relevant event arriving while a sync is in flight sets the
pending flag, and when the running invocation completes with the flag set,
exactly one additional invocation is started, with the flag cleared before
that run (monitor.py lines 160-174 and 249-257). -/
theorem c3_pending_resync (cfg : MCfg) (s : LState) :
    (∀ (e : FsEvent) (t : Nat) (s' : LState),
      s.sync_in_progress = true →
      relevantEvent cfg.local_dir e = true →
      LStep cfg s (.event e t) s' →
      s'.sync_pending = true) ∧
    (∀ (ok : Bool) (s' : LState),
      s.sync_pending = true →
      LStep cfg s (.execDone ok) s' →
      s'.sync_pending = false ∧ s'.sync_in_progress = true ∧
        s'.startedCount = s.startedCount + 1) := by
  constructor
  · intro e t s' hip hrel hstep
    cases hstep <;> simp_all
  · intro ok s' hp hstep
    cases hstep <;> simp_all

/-- Witness for `c3_pending_resync`: an event at clock 101 during the run
started at clock 100 latches the flag; the completion then chains exactly
one further invocation with the flag cleared. -/
theorem c3_pending_resync_witness :
    lBusyP.sync_pending = true ∧
    (lChain.sync_pending = false ∧ lChain.sync_in_progress = true ∧
      lChain.startedCount = lBusyP.startedCount + 1) :=
  ⟨(c3_pending_resync mcfg0 lBusy).1 ev0 101 lBusyP rfl (by decide)
     (LStep.eventThrottle lBusy ev0 101 (by decide) (by decide)),
   (c3_pending_resync mcfg0 lBusyP).2 false lChain rfl
     (LStep.execDoneChain lBusyP false (by decide) rfl)⟩

/-- Claim C4: the Health Monitor pass calls `task.check_health()` on every
registered task, but class `SyncTask` defines no `check_health` method, so
any pass over a non-empty registry raises `AttributeError` (killing the
health thread — no backoff/restart/max-5 logic exists anywhere); only the
empty registry completes a pass. -/
theorem c4_health_check_raises :
    health_check_pass [("vault", task0)]
        = .error (.attributeError "check_health") ∧
    health_check_pass [] = .ok () :=
  ⟨rfl, rfl⟩

/-- Claim C5, counterexample: a failing executor run (non-zero exit) for the
freshly started `vault` task leaves `error_count` at 0 — it is *not*
incremented to 1; the invocation was attempted, and a next relevant change
past the window still triggers a new attempt. -/
theorem c5_counterexample :
    (taskAfterHandlerEvent task0 mcfg0 mInit ev0 100 [false]).1.error_count
        = 0 ∧
    ¬ (taskAfterHandlerEvent task0 mcfg0 mInit ev0 100 [false]).1.error_count
        = 1 ∧
    ((taskAfterHandlerEvent task0 mcfg0 mInit ev0 100 [false]).2.2).length
        = 1 ∧
    ((on_any_event mcfg0
        (taskAfterHandlerEvent task0 mcfg0 mInit ev0 100 [false]).2.1
        ev0 110 [true]).2).length = 1 := by
  have e1 := single_trigger mcfg0 mInit ev0 100 [false] (by decide) rfl
    (by decide)
  simp only [taskAfterHandlerEvent, e1]
  have e2 := single_trigger mcfg0 ⟨100, false, false⟩ ev0 110 [true]
    (by decide) rfl (by decide)
  simp [e2]
  decide

/-- Claim C5, amended: an executor failure is caught inside the handler
(no exception escapes — the model step is a total function), the task stays
registered with its record untouched (in particular `error_count` is *not*
incremented), exactly the one failed invocation was issued, and a relevant
event one window later still triggers a fresh attempt. -/
theorem c5_amended (tk : MgrTask) (cfg : MCfg) (s : MState) (e : FsEvent)
    (t t2 : Nat)
    (hrel : relevantEvent cfg.local_dir e = true)
    (hidle : s.sync_in_progress = false)
    (hwin : s.last_sync + cfg.debounce_time ≤ t)
    (hnext : t + cfg.debounce_time ≤ t2) :
    (taskAfterHandlerEvent tk cfg s e t [false]).1 = tk ∧
    (taskAfterHandlerEvent tk cfg s e t [false]).2.1.sync_in_progress
        = false ∧
    ((taskAfterHandlerEvent tk cfg s e t [false]).2.2).map Invocation.time
        = [t] ∧
    ((on_any_event cfg (taskAfterHandlerEvent tk cfg s e t [false]).2.1
        e t2 [true]).2).map Invocation.time = [t2] := by
  have e1 := single_trigger cfg s e t [false] hrel hidle hwin
  have e2 := single_trigger cfg ⟨t, false, false⟩ e t2 [true] hrel rfl
    (by simpa using hnext)
  simp [taskAfterHandlerEvent, e1, e2]

/-- Witness for `c5_amended`: the `vault` task, a failing run triggered at
clock 100, and a successful retry triggered at clock 110. -/
theorem c5_amended_witness :
    relevantEvent mcfg0.local_dir ev0 = true ∧
    mInit.last_sync + mcfg0.debounce_time ≤ 100 ∧
    ((taskAfterHandlerEvent task0 mcfg0 mInit ev0 100 [false]).1 = task0 ∧
      (taskAfterHandlerEvent task0 mcfg0 mInit ev0 100 [false]).2.1.sync_in_progress
          = false ∧
      ((taskAfterHandlerEvent task0 mcfg0 mInit ev0 100 [false]).2.2).map
          Invocation.time = [100] ∧
      ((on_any_event mcfg0
          (taskAfterHandlerEvent task0 mcfg0 mInit ev0 100 [false]).2.1
          ev0 110 [true]).2).map Invocation.time = [110]) :=
  ⟨by decide, by decide,
    c5_amended task0 mcfg0 mInit ev0 100 110 (by decide) rfl (by decide)
      (by decide)⟩

/-- Claim C6, counterexample: the operation sequence of `cli.py save_config`
is not an atomic temp-write-then-rename — it writes the document straight
into the configuration file. -/
theorem c6_counterexample :
    ¬ atomicReplaceVia (save_config_ops "doc0") CONFIG_FILE := by
  intro h
  exact h.1 "doc0" (by decide)

/-- Claim C6, amended: `save_config` writes the whole document directly to
the configuration file, with no rename at all (so a concurrent reader can
observe a half-written document); the temp-file-plus-rename pattern is used
only by `save_pid` for the PID-lock file. -/
theorem c6_amended (doc pid : String) :
    FsOp.write CONFIG_FILE doc ∈ save_config_ops doc ∧
    (∀ a b, FsOp.rename a b ∉ save_config_ops doc) ∧
    atomicReplaceVia (save_pid_ops pid) PID_FILE := by
  refine ⟨by simp [save_config_ops], ?_, ?_, PID_FILE ++ ".tmp", by decide,
    ⟨pid, by simp [save_pid_ops]⟩, by simp [save_pid_ops]⟩
  · intro a b hb
    simp [save_config_ops] at hb
  · intro d hd
    have hne : PID_FILE ≠ PID_FILE ++ ".tmp" := by decide
    simp [save_pid_ops, hne] at hd

/-- Claim C7, counterexample: reconciling an empty registry against a config
whose only task `vault` is `paused` leaves the registry empty — the paused
new task is *not* registered (manager.py lines 413-419 only log it). -/
theorem c7_counterexample :
    (reload_reconcile [] [("vault", cfgPaused)] (fun _ => true) 0).lookup
        "vault" = none ∧
    reload_reconcile [] [("vault", cfgPaused)] (fun _ => true) 0 = [] :=
  ⟨rfl, rfl⟩

/-- Claim C7, amended: a task name newly present with `status = paused` is
neither registered nor started; a subsequent reconcile that sets its status
to `active` constructs, registers and starts it (its watch then being alive
exactly when the start succeeds). -/
theorem c7_amended (n : String) (cfg : TaskCfg) (ok : String → Bool)
    (now : Nat) (hp : cfg.status = "paused") :
    reload_reconcile [] [(n, cfg)] ok now = [] ∧
    reload_reconcile [] [(n, { cfg with status := "active" })] ok now
      = [(n, (SyncTask.new { cfg with status := "active" }).start (ok n) now)] ∧
    ((SyncTask.new { cfg with status := "active" }).start (ok n) now).running
      = ok n := by
  refine ⟨?_, ?_, ?_⟩
  · simp [reload_reconcile, hp]
  · simp [reload_reconcile]
  · cases h : ok n <;> simp [SyncTask.new, MgrTask.start, h]

/-- Witness for `c7_amended`: the `vault` task, paused then activated. -/
theorem c7_amended_witness :
    cfgPaused.status = "paused" ∧
    (reload_reconcile [] [("vault", cfgPaused)] (fun _ => true) 0 = [] ∧
      reload_reconcile [] [("vault", { cfgPaused with status := "active" })]
          (fun _ => true) 0
        = [("vault",
            (SyncTask.new { cfgPaused with status := "active" }).start true 0)] ∧
      ((SyncTask.new { cfgPaused with status := "active" }).start true 0).running
        = true) :=
  ⟨rfl, c7_amended "vault" cfgPaused (fun _ => true) 0 rfl⟩

/-- Every process surviving the cleanup fold was already in the table. -/
theorem cleanup_foldl_subset (selfPid : Nat) (ps : List SProc) (w : PWorld) :
    ∀ q ∈ (ps.foldl (cleanupStep selfPid) w).procs, q ∈ w.procs := by
  induction ps generalizing w with
  | nil => intro q hq; exact hq
  | cons a as ih =>
    intro q hq
    have h1 := ih (cleanupStep selfPid w a) q hq
    unfold cleanupStep at h1
    split at h1
    · exact List.mem_of_mem_filter h1
    · exact h1

/-- Any duplicate manager process in the iterated listing is gone from the
process table after the cleanup fold. -/
theorem cleanup_foldl_kills (selfPid : Nat) (ps : List SProc) :
    ∀ (w : PWorld) (p : SProc), p ∈ ps → isManagerProc p = true →
      p.pid ≠ selfPid →
      ∀ q ∈ (ps.foldl (cleanupStep selfPid) w).procs, q.pid ≠ p.pid := by
  induction ps with
  | nil =>
    intro w p hp
    cases hp
  | cons a as ih =>
    intro w p hp hm hne q hq
    rcases List.mem_cons.mp hp with heq | hp'
    · subst heq
      have h1 : q ∈ (cleanupStep selfPid w p).procs :=
        cleanup_foldl_subset selfPid as (cleanupStep selfPid w p) q hq
      unfold cleanupStep at h1
      rw [if_pos (by simp [hm, hne])] at h1
      simpa using (List.mem_filter.mp h1).2
    · exact ih (cleanupStep selfPid w a) p hp' hm hne q hq

/-- Claim C8, counterexample: starting the second daemon (pid 2) while the
first (pid 1) runs and holds the lock does *not* make the second exit:
startup terminates the first daemon, clears the lock and stop-flag files,
writes its own PID and proceeds to run. -/
theorem c8_counterexample :
    daemon_main_startup pworld0 2
      = .runs ⟨[⟨2, "python", ["python", "-m", "secure_cloud_syncer.manager"]⟩],
          some "2", false⟩ ∧
    (check_and_cleanup_duplicate_managers pworld0 2).procs.all
        (fun p => p.pid != 1) = true :=
  ⟨rfl, rfl⟩

/-- Claim C8, amended: when another manager process exists at startup, the
starting daemon does not exit — it kills every duplicate (none survives in
the process table), writes its own PID file and runs. -/
theorem c8_amended (w : PWorld) (selfPid : Nat) (p : SProc)
    (hp : p ∈ w.procs) (hm : isManagerProc p = true)
    (hne : p.pid ≠ selfPid) :
    ∃ w', daemon_main_startup w selfPid = .runs w' ∧
      w'.pid_file = some (toString selfPid) ∧
      ∀ q ∈ w'.procs, q.pid ≠ p.pid := by
  refine ⟨_, rfl, rfl, ?_⟩
  intro q hq
  exact cleanup_foldl_kills selfPid w.procs w p hp hm hne q hq

/-- Witness for `c8_amended`: the concrete two-daemon world. -/
theorem c8_amended_witness :
    (⟨1, "python", ["python", "-m", "secure_cloud_syncer.manager"]⟩ : SProc)
        ∈ pworld0.procs ∧
    ∃ w', daemon_main_startup pworld0 2 = .runs w' ∧
      w'.pid_file = some (toString 2) ∧
      ∀ q ∈ w'.procs, q.pid ≠ 1 :=
  ⟨by decide,
    c8_amended pworld0 2
      ⟨1, "python", ["python", "-m", "secure_cloud_syncer.manager"]⟩
      (by decide) (by decide) (by decide)⟩

/-- Claim C9, counterexample: a reload that hits a malformed config file
leaves the registry exactly as it was (the `vault` task still registered and
running) — it does *not* reconcile against the empty task set, which would
have emptied the registry. -/
theorem c9_counterexample :
    reload_config [("vault", task0)] .malformed (fun _ => true) 0
      = [("vault", task0)] ∧
    reload_reconcile [("vault", task0)] [] (fun _ => true) 0 = [] ∧
    ([("vault", task0)] : Registry) ≠ [] := by
  refine ⟨rfl, rfl, by simp⟩

/-- Claim C9, amended: the CLI `load_config` yields the empty task set for a
missing or malformed file; the daemon's reload reconciles against the empty
set only for a *missing* file, while a malformed file makes the reload log
and return with the registry unchanged (no crash, but also no reconcile). -/
theorem c9_amended (reg : Registry) (ok : String → Bool) (now : Nat)
    (syncs : List (String × TaskCfg)) :
    load_config .missing = [] ∧
    load_config .malformed = [] ∧
    load_config (.parsed syncs) = syncs ∧
    reload_config reg .missing ok now = reload_reconcile reg [] ok now ∧
    reload_config reg .malformed ok now = reg ∧
    reload_config reg (.parsed syncs) ok now
      = reload_reconcile reg syncs ok now :=
  ⟨rfl, rfl, rfl, rfl, rfl, rfl⟩

/-- Claim C10, counterexample: on the output
`"rclone v0.9.9 rclone v2.0.0"` both checks return `false` (they act on the
*leftmost* match `0.9.9`), although the output does contain a version
(`2.0.0`) satisfying `major > 1` — so "true exactly when the output contains
such a version" fails. -/
theorem c10_counterexample :
    monitor_check_rclone_version (.ok "rclone v0.9.9 rclone v2.0.0")
      = false ∧
    bidirectional_check_rclone_version (.ok "rclone v0.9.9 rclone v2.0.0")
      = false ∧
    containsGoodVersion "rclone v0.9.9 rclone v2.0.0" = true :=
  ⟨rfl, rfl, rfl⟩

/-- Claim C10, amended: the two version checks agree on every outcome of the
version command (`minor >= 58` and `minor > 57` coincide on integers), and
both return true exactly when the *first* occurrence of `rclone vX.Y.Z` in
the output satisfies `X > 1` or `X = 1 ∧ Y ≥ 58` (false in particular when
nothing parses or the command raised). -/
theorem c10_amended (r : RunResult) :
    monitor_check_rclone_version r = bidirectional_check_rclone_version r ∧
    (monitor_check_rclone_version r = true ↔
      ∃ v, versionOfRunResult r = some v ∧
        (1 < v.1 ∨ (v.1 = 1 ∧ 58 ≤ v.2.1))) := by
  cases r with
  | error e =>
    simp [monitor_check_rclone_version, bidirectional_check_rclone_version,
      versionOfRunResult]
  | ok out =>
    simp only [monitor_check_rclone_version,
      bidirectional_check_rclone_version, versionOfRunResult]
    cases h : searchVersion out.data with
    | none => simp
    | some v =>
      obtain ⟨ma, mi, pa⟩ := v
      by_cases h1 : 1 < ma ∨ (ma = 1 ∧ 58 ≤ mi)
      · have h2 : 1 < ma ∨ (ma = 1 ∧ 57 < mi) := by omega
        simp [h1, h2]
      · have h2 : ¬ (1 < ma ∨ (ma = 1 ∧ 57 < mi)) := by omega
        simp [h1, h2]
